import Mathlib

/-!
# LockGift core — shallow embedding and verification

Shallow embedding of the LockGift repository's core (`src/lib/bitcoin.ts`:
`createCLTVRedeemScript`, `buildLockingTransaction`, `getUtxo`; the Supabase
ledger operations `createGift`, `lockGift`, `claimGift`, `updateConfirmations`,
`getNextHDIndex`; and the two reconciliation entry points
`src/app/api/admin/check-deposits/route.ts` and
`src/app/api/webhooks/mempool/route.ts`), together with theorems settling the
specification claims about them.

Cryptographic primitives (WIF decoding, HASH160, address decoding, P2WSH
wrapping, HD derivation) are kept abstract as parameters of the embedding,
so every theorem quantifies over all implementations of those primitives;
the arithmetic, control flow and data flow are translated from the source.
-/

set_option maxRecDepth 100000

namespace LockGift

/-! ## IEEE-754 binary64 model

JavaScript numbers are IEEE-754 binary64 values.  `buildLockingTransaction`
computes `Math.floor(utxoAmountSats * (feePercent / 100))` with that
arithmetic, so the embedding models the two roundings (one for the division,
one for the multiplication) exactly: a positive rational is rounded to the
nearest 53-significant-bit dyadic rational, ties to even.  The model covers
the normal, non-overflowing range, which contains every value these
computations can produce for satoshi amounts and fee percentages. -/

/-- An unnormalised non-negative fraction `num / den` (`den` positive in use). -/
structure Frac where
  num : Nat
  den : Nat
deriving DecidableEq

/-- Floor of a fraction, as a natural number. -/
def Frac.floorNat (x : Frac) : Nat := x.num / x.den

/-- Fuel-driven base-2 logarithm on `Nat` (structural recursion so that the
kernel can evaluate it inside `decide`). -/
def log2Fuel : Nat → Nat → Nat
  | 0, _ => 0
  | fuel + 1, n => if 2 ≤ n then log2Fuel fuel (n / 2) + 1 else 0

/-- `nlog2 n = ⌊log₂ n⌋` for `n ≥ 1` (and `0` at `0`). -/
def nlog2 (n : Nat) : Nat := log2Fuel n n

/-- Decide `2 ^ k ≤ x` for an integer exponent `k` and a positive fraction. -/
def pow2LeFrac (k : Int) (x : Frac) : Bool :=
  if 0 ≤ k then decide (2 ^ k.toNat * x.den ≤ x.num)
  else decide (x.den ≤ x.num * 2 ^ (-k).toNat)

/-- The exponent `k` with `2 ^ k ≤ x < 2 ^ (k+1)`, for a positive fraction:
start from the bit-length estimate and adjust upward. -/
def flog2 (x : Frac) : Int :=
  let k0 : Int := (nlog2 x.num : Int) - (nlog2 x.den : Int) - 1
  let k1 : Int := if pow2LeFrac (k0 + 1) x then k0 + 1 else k0
  if pow2LeFrac (k1 + 1) x then k1 + 1 else k1

/-- Round a non-negative fraction to the nearest binary64 value (53-bit
significand, ties to even), returned as a dyadic fraction. -/
def roundFrac (x : Frac) : Frac :=
  if x.num = 0 then ⟨0, 1⟩ else
  let k := flog2 x
  let e : Int := 52 - k
  -- scaled = x * 2^e ∈ [2^52, 2^53)
  let snum := if 0 ≤ e then x.num * 2 ^ e.toNat else x.num
  let sden := if 0 ≤ e then x.den else x.den * 2 ^ (-e).toNat
  let n0 := snum / sden
  let r2 := snum % sden * 2
  let n := if sden < r2 then n0 + 1
           else if r2 < sden then n0
           else if n0 % 2 = 0 then n0 else n0 + 1
  -- result = n * 2^(-e)
  if 0 ≤ e then ⟨n, 2 ^ e.toNat⟩ else ⟨n * 2 ^ (-e).toNat, 1⟩

/-- JavaScript division of two (exactly represented) non-negative values:
the exact quotient rounded once. -/
def jsDiv (a b : Frac) : Frac := roundFrac ⟨a.num * b.den, a.den * b.num⟩

/-- JavaScript multiplication of two binary64 values: the exact product
rounded once. -/
def jsMul (a b : Frac) : Frac := roundFrac ⟨a.num * b.num, a.den * b.den⟩

/-- The fee computation of `buildLockingTransaction` (bitcoin.ts line 187):
`Math.floor(utxoAmountSats * (feePercent / 100))`, with the two IEEE-754
roundings of the source's arithmetic.  `amount` is a satoshi count (an
integer, exactly representable in binary64) and `feePercent` a binary64
value. -/
def jsFee (amount : Nat) (feePercent : Frac) : Nat :=
  (jsMul ⟨amount, 1⟩ (jsDiv feePercent ⟨100, 1⟩)).floorNat

/-! ## Script model (`createCLTVRedeemScript`) -/

/-- One element of a Bitcoin script as assembled by
`bitcoin.script.fromASM` in `createCLTVRedeemScript`: either a data push
(given by its bytes) or one of the three opcodes the script uses. -/
inductive ScriptElem where
  | push (bytes : List Nat)
  | OP_CHECKLOCKTIMEVERIFY
  | OP_DROP
  | OP_CHECKSIG
deriving DecidableEq

abbrev Script := List ScriptElem

/-- The `Network` string union of bitcoin.ts. -/
inductive Network where
  | mainnet
  | testnet
deriving DecidableEq

/-- `Buffer.alloc(4); buffer.writeUInt32LE(t, 0)` (bitcoin.ts lines 148–149):
the fixed-width 4-byte little-endian encoding of the timestamp.  Valid for
`t < 2^32` (Node throws a `RangeError` beyond that). -/
def writeUInt32LE (t : Nat) : List Nat :=
  [t % 256, t / 256 % 256, t / 65536 % 256, t / 16777216 % 256]

/-- `createCLTVRedeemScript` (bitcoin.ts lines 139–154):
`<4-byte LE unlockTimestamp> OP_CHECKLOCKTIMEVERIFY OP_DROP
<beneficiaryPubkeyHash> OP_CHECKSIG`.  The `network` argument is accepted
and unused, as in the source. -/
def createCLTVRedeemScript (beneficiaryPubkeyHash : List Nat)
    (unlockTimestamp : Nat) (_network : Network) : Script :=
  [ .push (writeUInt32LE unlockTimestamp),
    .OP_CHECKLOCKTIMEVERIFY,
    .OP_DROP,
    .push beneficiaryPubkeyHash,
    .OP_CHECKSIG ]

/-- Little-endian bytes of `n` with no most-significant zero byte
(fuel-driven structural recursion). -/
def leBytesAux : Nat → Nat → List Nat
  | 0, _ => []
  | fuel + 1, n => if n = 0 then [] else n % 256 :: leBytesAux fuel (n / 256)

/-- Little-endian byte string of `n`, shortest form. -/
def leBytes (n : Nat) : List Nat := leBytesAux n n

/-- Canonical minimal script-number encoding of a non-negative integer, as
the spec's words require for the CLTV operand: shortest little-endian byte
string, with a zero byte appended when the top byte would set the sign bit.
This is the spec-side comparator for the encoding actually emitted by
`createCLTVRedeemScript`; it is not how the source encodes the timestamp. -/
def minimalScriptNum (t : Nat) : List Nat :=
  if t = 0 then []
  else
    let bs := leBytes t
    if 128 ≤ bs.getLastD 0 then bs ++ [0] else bs

/-! ## `buildLockingTransaction` -/

/-- The cryptographic and encoding primitives `buildLockingTransaction`
takes from its libraries, kept abstract: theorems about the builder hold
for every implementation of these.
* `pubkeyOfWif` — `ECPair.fromWIF(wif).publicKey`;
* `hash160` — `bitcoin.crypto.ripemd160(bitcoin.crypto.sha256 ·)`;
* `toOutputScript` — `bitcoin.address.toOutputScript` (`none` models the
  throw on an undecodable address);
* `p2wshScript` — the scriptPubKey of `bitcoin.payments.p2wsh` wrapping a
  redeem script;
* `hdPrivKey` — the `privateKey` WIF returned by `generateHDFeatureAddress`
  for a seed, index and network. -/
structure CryptoEnv where
  pubkeyOfWif : String → List Nat
  hash160 : List Nat → List Nat
  toOutputScript : String → Network → Option (List Nat)
  p2wshScript : Script → List Nat
  hdPrivKey : String → Nat → Network → String

/-- `LockingTxParams` (bitcoin.ts lines 109–126). -/
structure LockingTxParams where
  utxoTxId : String
  utxoVout : Nat
  utxoAmountSats : Nat
  hotWalletWif : String
  beneficiaryAddress : String
  unlockTimestamp : Nat
  feePercent : Frac
  feeAddress : String
  network : Network
deriving DecidableEq

/-- One output of the assembled transaction: its scriptPubKey bytes and its
value in satoshis. -/
structure TxOutput where
  script : List Nat
  value : Int
deriving DecidableEq

/-- `LockingTxResult`, together with the content of the PSBT the source
serialises: the single input, the fee output and the time-locked output
(the source's base64/txid serialisation itself is not modelled). -/
structure LockingTxResult where
  input : String × Nat
  feeOutput : TxOutput
  lockedOutput : TxOutput
  redeemScript : Script
  feeSats : Int
  lockedAmountSats : Int
deriving DecidableEq

/-- `buildLockingTransaction` (bitcoin.ts lines 159–237), as a function of
the abstract primitives.  Mirrors the source's order of effects: decode the
beneficiary address (line 177, throws on failure), hash the **hot wallet**
public key into the `beneficiaryPubkeyHash` variable (line 181), build the
redeem script (line 184), compute the fee split (lines 187–188), reject a
non-positive locked amount (line 190), then assemble the two outputs
(lines 207–223; an undecodable fee address throws inside `addOutput`). -/
def buildLockingTransaction (env : CryptoEnv) (p : LockingTxParams) :
    Except String LockingTxResult :=
  match env.toOutputScript p.beneficiaryAddress p.network with
  | none => .error "invalid beneficiary address"
  | some _beneficiaryOutputScript =>
    let beneficiaryPubkeyHash := env.hash160 (env.pubkeyOfWif p.hotWalletWif)
    let redeemScript :=
      createCLTVRedeemScript beneficiaryPubkeyHash p.unlockTimestamp p.network
    let feeSats : Int := (jsFee p.utxoAmountSats p.feePercent : Int)
    let lockedAmountSats : Int := (p.utxoAmountSats : Int) - feeSats
    if lockedAmountSats ≤ 0 then .error "Amount too small to cover fee"
    else
      match env.toOutputScript p.feeAddress p.network with
      | none => .error "invalid fee address"
      | some feeScript =>
        .ok { input := (p.utxoTxId, p.utxoVout),
              feeOutput := ⟨feeScript, feeSats⟩,
              lockedOutput := ⟨env.p2wshScript redeemScript, lockedAmountSats⟩,
              redeemScript := redeemScript,
              feeSats := feeSats,
              lockedAmountSats := lockedAmountSats }

/-- The redeem script of a build result, `none` on failure. -/
def redeemOf : Except String LockingTxResult → Option Script
  | .ok r => some r.redeemScript
  | .error _ => none

/-- The `(feeSats, lockedAmountSats)` pair of a build result. -/
def feeLockOf : Except String LockingTxResult → Option (Int × Int)
  | .ok r => some (r.feeSats, r.lockedAmountSats)
  | .error _ => none

/-- The `(fee output value, locked output value)` pair of a build result. -/
def outValsOf : Except String LockingTxResult → Option (Int × Int)
  | .ok r => some (r.feeOutput.value, r.lockedOutput.value)
  | .error _ => none

/-- Whether a build attempt produced a transaction. -/
def isOkB : Except String LockingTxResult → Bool
  | .ok _ => true
  | .error _ => false

/-! ## Gift ledger (supabase.ts)

The ledger operations are unconditional row updates keyed by `id`; each is
embedded as the pure record transformation it applies to the addressed
row.  `created_at`, `locked_at`, `claimed_at` and `sender_ip` are wall-clock
bookkeeping fields never read by the core and are omitted.  `unlock_at` is
stored as a date; both reconciliation routes convert it with
`Math.floor(new Date(gift.unlock_at).getTime() / 1000)`, so the embedding
keeps it directly as Unix seconds. -/

/-- The `status` union of the `gifts` table. -/
inductive GiftStatus where
  | pending
  | locked
  | claimed
  | expired
deriving DecidableEq

/-- A row of the `gifts` table (the fields the core reads or writes). -/
structure Gift where
  id : String
  depositAddress : String
  depositTxid : Option String
  depositConfirmations : Nat
  lockTxid : Option String
  amountSats : Nat
  beneficiaryAddress : String
  unlockAt : Nat
  feePercent : Frac
  status : GiftStatus
  claimTxid : Option String
  utxoTxid : Option String
  utxoVout : Option Nat
  utxoAmountSats : Option Nat
  hdIndex : Option Nat
deriving DecidableEq

/-- The parameters of `createGift` (supabase.ts lines 485–493). -/
structure CreateGiftParams where
  depositAddress : String
  amountSats : Nat
  beneficiaryAddress : String
  unlockAt : Nat
  feePercent : Option Frac
  hdIndex : Option Nat
deriving DecidableEq

/-- JavaScript `x || d` on an optional number: `undefined` and the falsy
value `0` both fall back to the default. -/
def jsOrFrac (x : Option Frac) (d : Frac) : Frac :=
  match x with
  | none => d
  | some f => if f.num = 0 then d else f

/-- `createGift` (supabase.ts lines 485–513): the inserted row.  `status`
is `'pending'`, `fee_percent` is `params.feePercent || 1.0`, `hd_index` is
`params.hdIndex ?? null`. -/
def createGift (id : String) (p : CreateGiftParams) : Gift :=
  { id := id,
    depositAddress := p.depositAddress,
    depositTxid := none,
    depositConfirmations := 0,
    lockTxid := none,
    amountSats := p.amountSats,
    beneficiaryAddress := p.beneficiaryAddress,
    unlockAt := p.unlockAt,
    feePercent := jsOrFrac p.feePercent ⟨1, 1⟩,
    status := .pending,
    claimTxid := none,
    utxoTxid := none,
    utxoVout := none,
    utxoAmountSats := none,
    hdIndex := p.hdIndex }

/-- The parameters of `lockGift` (supabase.ts lines 550–556). -/
structure LockParams where
  depositTxid : String
  lockTxid : String
  utxoTxid : String
  utxoVout : Nat
  utxoAmountSats : Nat
deriving DecidableEq

/-- `lockGift` (supabase.ts lines 550–573): an unconditional update keyed
only on `id` — it records the deposit and lock references and sets
`status := 'locked'` whatever the row's current status is. -/
def lockGift (g : Gift) (p : LockParams) : Gift :=
  { g with depositTxid := some p.depositTxid,
           lockTxid := some p.lockTxid,
           utxoTxid := some p.utxoTxid,
           utxoVout := some p.utxoVout,
           utxoAmountSats := some p.utxoAmountSats,
           status := .locked }

/-- `claimGift` (supabase.ts lines 578–591): unconditionally records the
claim transaction and sets `status := 'claimed'`. -/
def claimGift (g : Gift) (claimTxid : String) : Gift :=
  { g with claimTxid := some claimTxid, status := .claimed }

/-- `updateConfirmations` (supabase.ts lines 596–605): updates only
`deposit_confirmations`. -/
def updateConfirmations (g : Gift) (confirmations : Nat) : Gift :=
  { g with depositConfirmations := confirmations }

/-- Position of a status along the claim's order
`pending → locked → claimed` (with terminal `expired` above). -/
def statusRank : GiftStatus → Nat
  | .pending => 0
  | .locked => 1
  | .claimed => 2
  | .expired => 3

/-! ## HD-index allocation (`getNextHDIndex`) -/

/-- `getNextHDIndex` (supabase.ts lines 626–643) as a function of the rows
it queries: it selects the non-null `hd_index` values, takes the maximum
(the query orders descending and keeps one row), and returns `max + 1`; with
no such row it returns the configured starting index (`HD_INDEX`, default
`0`).  This is a read of current state, not an atomic increment. -/
def getNextHDIndex (rows : List (Option Nat)) (envHDIndex : Nat) : Nat :=
  match (rows.filterMap id).foldr
      (fun a m => match m with | none => some a | some b => some (max a b)) none with
  | none => envHDIndex
  | some m => m + 1

/-- State of two concurrent gift-creation requests racing through
`getNextHDIndex` and the subsequent `createGift` insert
(create/route.ts lines 60–91): the table's `hd_index` column, the index
each request computed at its read, and the index each request persisted. -/
structure AllocRun where
  rows : List (Option Nat)
  read1 : Option Nat
  read2 : Option Nat
  alloc1 : Option Nat
  alloc2 : Option Nat
deriving DecidableEq

/-- One scheduler event: request 1 or 2 performs its `getNextHDIndex` read,
or its `createGift` insert. -/
inductive AllocEvent where
  | read1
  | read2
  | insert1
  | insert2
deriving DecidableEq

/-- Apply one event of the two racing creation requests. -/
def allocStep (envHDIndex : Nat) (s : AllocRun) : AllocEvent → AllocRun
  | .read1 => { s with read1 := some (getNextHDIndex s.rows envHDIndex) }
  | .read2 => { s with read2 := some (getNextHDIndex s.rows envHDIndex) }
  | .insert1 =>
    match s.read1 with
    | none => s
    | some i => { s with rows := s.rows ++ [some i], alloc1 := some i }
  | .insert2 =>
    match s.read2 with
    | none => s
    | some i => { s with rows := s.rows ++ [some i], alloc2 := some i }

/-- Run a schedule of events from an empty `gifts` table. -/
def runAlloc (envHDIndex : Nat) (events : List AllocEvent) : AllocRun :=
  events.foldl (allocStep envHDIndex) ⟨[], none, none, none, none⟩

/-! ## Chain provider (`getUtxo`) -/

/-- One entry of the Mempool.space `/address/{a}/utxo` response. -/
structure RawUtxo where
  txid : String
  vout : Nat
  value : Nat
deriving DecidableEq

/-- The UTXO record `getUtxo` returns to its callers. -/
structure Utxo where
  txid : String
  vout : Nat
  amount : Nat
deriving DecidableEq

/-- `getUtxo` (bitcoin.ts lines 265–288) as a function of the provider's
response: `none` when the request failed (`!response.ok`) and when the list
is empty; otherwise the element `utxos[0]`, with `value` renamed to
`amount`. -/
def getUtxo (resp : Option (List RawUtxo)) : Option Utxo :=
  match resp with
  | none => none
  | some utxos =>
    match utxos with
    | [] => none
    | u :: _ => some ⟨u.txid, u.vout, u.value⟩

/-! ## Reconciliation entry points -/

/-- Outcome of one pending gift's iteration of the periodic sweep
(check-deposits/route.ts lines 46–119). -/
inductive SweepOutcome where
  | skippedNoUtxo
  | skippedTooSmall
  | missingSeedOrIndex
  | missingFeeAddress
  | buildFailedSweep (msg : String)
  | lockedGiftSweep
deriving DecidableEq

/-- The loop body of the periodic check-deposits sweep for one gift already
filtered to `status = 'pending'` (check-deposits/route.ts lines 46–119), as
a function of the UTXO the provider reported.  Order as in the source: no
UTXO → skip; `utxo.amount < 6000` → skip (lines 57–60); missing HD seed or
`hd_index` → error; missing fee address → error; otherwise derive the
per-gift key, build the locking transaction, broadcast (`broadcastTxid` is
the id the broadcaster returns) and apply `lockGift`.  Returns the outcome
and the (possibly updated) gift row. -/
def checkDepositsStep (env : CryptoEnv) (hdSeed : Option String)
    (envFeePercent : Frac) (feeAddress : Option String) (network : Network)
    (broadcastTxid : String) (gift : Gift) (utxo : Option Utxo) :
    SweepOutcome × Gift :=
  match utxo with
  | none => (.skippedNoUtxo, gift)
  | some u =>
    if u.amount < 6000 then (.skippedTooSmall, gift)
    else
      match hdSeed, gift.hdIndex with
      | some seed, some idx =>
        let wif := env.hdPrivKey seed idx network
        match feeAddress with
        | none => (.missingFeeAddress, gift)
        | some fa =>
          match buildLockingTransaction env
              { utxoTxId := u.txid, utxoVout := u.vout,
                utxoAmountSats := u.amount, hotWalletWif := wif,
                beneficiaryAddress := gift.beneficiaryAddress,
                unlockTimestamp := gift.unlockAt,
                feePercent := envFeePercent, feeAddress := fa,
                network := network } with
          | .error e => (.buildFailedSweep e, gift)
          | .ok _ =>
            (.lockedGiftSweep,
             lockGift gift ⟨u.txid, broadcastTxid, u.txid, u.vout, u.amount⟩)
      | _, _ => (.missingSeedOrIndex, gift)

/-- Outcome of the mempool webhook (webhooks/mempool/route.ts). -/
inductive WebhookOutcome where
  | alreadyProcessed
  | configError
  | utxoNotFound
  | buildFailedHook (msg : String)
  | lockedGiftHook
deriving DecidableEq

/-- The webhook's handling of a gift found for the posted address
(webhooks/mempool/route.ts lines 35–91), as a function of the UTXO
`getUtxo` returned.  A non-`'pending'` gift returns early; a missing
`HOT_WALLET_WIF` or `FEE_ADDRESS` is a configuration error; otherwise the
locking transaction is built from the UTXO — with **no** minimum-amount
check — broadcast, and `lockGift` applied.  `bodyTxid` is the optional
`txid` of the webhook body (`txid || utxo.txid` becomes `deposit_txid`). -/
def webhookStep (env : CryptoEnv) (hotWalletWif feeAddress : Option String)
    (network : Network) (gift : Gift) (utxoOpt : Option Utxo)
    (broadcastTxid : String) (bodyTxid : Option String) :
    WebhookOutcome × Gift :=
  if gift.status = .pending then
    match hotWalletWif, feeAddress with
    | some wif, some fa =>
      match utxoOpt with
      | none => (.utxoNotFound, gift)
      | some u =>
        match buildLockingTransaction env
            { utxoTxId := u.txid, utxoVout := u.vout,
              utxoAmountSats := u.amount, hotWalletWif := wif,
              beneficiaryAddress := gift.beneficiaryAddress,
              unlockTimestamp := gift.unlockAt,
              feePercent := gift.feePercent, feeAddress := fa,
              network := network } with
        | .error e => (.buildFailedHook e, gift)
        | .ok _ =>
          (.lockedGiftHook,
           lockGift gift
             ⟨bodyTxid.getD u.txid, broadcastTxid, u.txid, u.vout, u.amount⟩)
    | _, _ => (.configError, gift)
  else (.alreadyProcessed, gift)

/-- The webhook route from the provider response: it feeds `getUtxo`'s
result into the handler above (webhooks/mempool/route.ts line 50). -/
def webhookRoute (env : CryptoEnv) (hotWalletWif feeAddress : Option String)
    (network : Network) (gift : Gift) (resp : Option (List RawUtxo))
    (broadcastTxid : String) (bodyTxid : Option String) :
    WebhookOutcome × Gift :=
  webhookStep env hotWalletWif feeAddress network gift (getUtxo resp)
    broadcastTxid bodyTxid

/-- The only unlock-time validation in the system: the create route's
`if (unlockDate <= new Date()) reject` (create/route.ts lines 42–49).
`true` means the request passes, which happens exactly when the unlock
date is strictly later than now; there is no upper bound. -/
def createRouteUnlockOk (unlockAtMs nowMs : Nat) : Bool :=
  decide (nowMs < unlockAtMs)

/-! ## Concrete instantiations used by witnesses and counterexamples

Stand-in implementations of the abstract primitives: structurally simple
total functions, sufficient to evaluate the embedded control flow on
concrete inputs. -/

/-- A concrete `CryptoEnv` for evaluations. -/
def testEnv : CryptoEnv :=
  { pubkeyOfWif := fun s => [s.length],
    hash160 := fun l => 0 :: l,
    toOutputScript := fun s _ => some [s.length],
    p2wshScript := fun scr => [scr.length],
    hdPrivKey := fun seed _ _ => seed }

/-- A placeholder `LockingTxResult` for the `okOr` projection. -/
def dummyResult : LockingTxResult :=
  { input := ("", 0), feeOutput := ⟨[], 0⟩, lockedOutput := ⟨[], 0⟩,
    redeemScript := [], feeSats := 0, lockedAmountSats := 0 }

/-- Extract a successful build result, with a fallback. -/
def okOr (d : LockingTxResult) : Except String LockingTxResult → LockingTxResult
  | .ok r => r
  | .error _ => d

/-- Baseline concrete parameters: a 100,000-sat deposit, a 1% fee, an
unlock time of 2030-01-01 (1,893,456,000). -/
def pBase : LockingTxParams :=
  { utxoTxId := "aa", utxoVout := 0, utxoAmountSats := 100000,
    hotWalletWif := "hotwif", beneficiaryAddress := "beneficiary",
    unlockTimestamp := 1893456000, feePercent := ⟨1, 1⟩,
    feeAddress := "feeaddr", network := .testnet }

/-- The build result at the baseline parameters. -/
def rBase : LockingTxResult := okOr dummyResult (buildLockingTransaction testEnv pBase)

/-- A 100-sat deposit with a 29% fee: the pair at which binary64 rounding
makes `Math.floor(100 * (29 / 100))` fall below the exact `⌊100·29/100⌋`. -/
def pFee29 : LockingTxParams :=
  { pBase with utxoAmountSats := 100, feePercent := ⟨29, 1⟩ }

/-- The build result at the 29%-fee parameters. -/
def rFee29 : LockingTxResult := okOr dummyResult (buildLockingTransaction testEnv pFee29)

/-- A 1-sat deposit: the computed locked amount (1 sat) is positive but far
below any network dust threshold. -/
def pOneSat : LockingTxParams := { pBase with utxoAmountSats := 1 }

/-- Baseline parameters with `unlockTimestamp := 600000`, a value in the
CLTV block-height range (< 500,000,000) and in the past. -/
def pHeight : LockingTxParams := { pBase with unlockTimestamp := 600000 }

/-- A pending gift awaiting a deposit, with `hd_index` 3 and a 1% fee. -/
def gPending : Gift :=
  { id := "g9", depositAddress := "dep9", depositTxid := none,
    depositConfirmations := 0, lockTxid := none, amountSats := 10000,
    beneficiaryAddress := "bene", unlockAt := 1893456000,
    feePercent := ⟨1, 1⟩, status := .pending, claimTxid := none,
    utxoTxid := none, utxoVout := none, utxoAmountSats := none,
    hdIndex := some 3 }

/-- The webhook run on `gPending` with a single 5,999-sat UTXO at the
deposit address. -/
def whRun5999 : WebhookOutcome × Gift :=
  webhookRoute testEnv (some "hotwif") (some "feeaddr") .testnet gPending
    (some [⟨"deptx", 0, 5999⟩]) "locktx" none

/-- A gift whose beneficiary has already claimed it. -/
def gClaimed : Gift :=
  { gPending with id := "g8", status := .claimed, claimTxid := some "claimtx" }

/-- Concrete `lockGift` parameters. -/
def lpEx : LockParams := ⟨"deptx", "locktx", "utxtx", 0, 100000⟩

/-! ## Theorems -/

/-- C1: for every implementation of the cryptographic primitives and every
successful build, the pubkey-hash the CLTV redeem script commits to is
`HASH160(pubkey(hotWalletWif))` — the operator's hot-wallet key, derived
without any reference to the beneficiary's key material.  This settles the
claim negatively: the final `OP_CHECKSIG` is keyed to the operator's
hot-wallet key, not to the beneficiary. -/
theorem buildLockingTransaction_commits_to_hot_wallet_key
    (env : CryptoEnv) (p : LockingTxParams) (r : LockingTxResult)
    (h : buildLockingTransaction env p = .ok r) :
    r.redeemScript =
      createCLTVRedeemScript (env.hash160 (env.pubkeyOfWif p.hotWalletWif))
        p.unlockTimestamp p.network := by
  simp only [buildLockingTransaction] at h
  split at h
  · exact absurd h (by simp)
  · split at h
    · exact absurd h (by simp)
    · split at h
      · exact absurd h (by simp)
      · injection h with h
        subst h
        rfl

/-- C1 witness: the theorem applied at the baseline build. -/
theorem buildLockingTransaction_commits_to_hot_wallet_key_witness :
    rBase.redeemScript =
      createCLTVRedeemScript (testEnv.hash160 (testEnv.pubkeyOfWif pBase.hotWalletWif))
        pBase.unlockTimestamp pBase.network :=
  buildLockingTransaction_commits_to_hot_wallet_key testEnv pBase rBase rfl

/-- C3: the timestamp operand of the redeem script is the fixed-width
4-byte little-endian field `writeUInt32LE`, not the canonical minimal
script-number encoding: at `unlockTimestamp = 600000` the script pushes
`C0 27 09 00` where the minimal encoding is `C0 27 09`, and at
`2^31` (the first post-2038 second) it pushes `00 00 00 80` — which the
script interpreter reads as a negative number — where the minimal encoding
is `00 00 00 80 00`. -/
theorem createCLTVRedeemScript_fixed_width_not_minimal :
    createCLTVRedeemScript [1, 2, 3] 600000 .testnet =
      [ .push [0xC0, 0x27, 0x09, 0x00], .OP_CHECKLOCKTIMEVERIFY, .OP_DROP,
        .push [1, 2, 3], .OP_CHECKSIG ] ∧
    minimalScriptNum 600000 = [0xC0, 0x27, 0x09] ∧
    writeUInt32LE 600000 ≠ minimalScriptNum 600000 ∧
    writeUInt32LE 2147483648 = [0, 0, 0, 0x80] ∧
    minimalScriptNum 2147483648 = [0, 0, 0, 0x80, 0] := by decide

/-- C7: `getNextHDIndex` is a read-max-plus-one query, so two concurrent
gift creations that both read before either inserts allocate the same
`hd_index`: under the schedule read₁, read₂, insert₁, insert₂ from an empty
ledger both gifts persist index 0. -/
theorem getNextHDIndex_race_duplicates :
    (runAlloc 0 [.read1, .read2, .insert1, .insert2]).alloc1 = some 0 ∧
    (runAlloc 0 [.read1, .read2, .insert1, .insert2]).alloc2 = some 0 ∧
    getNextHDIndex [] 0 = 0 := by decide

/-- C8 counterexample: `lockGift` applied to a gift whose status is already
`claimed` does not leave it at `claimed` — it unconditionally overwrites the
status with `locked`, a backward transition in the order
pending → locked → claimed. -/
theorem lockGift_moves_claimed_back_to_locked :
    (lockGift gClaimed lpEx).status = .locked ∧
    GiftStatus.locked ≠ GiftStatus.claimed ∧
    statusRank (lockGift gClaimed lpEx).status < statusRank gClaimed.status := by
  decide

/-- C8 amended: `createGift` inserts at `pending`, `updateConfirmations`
never touches the status, `claimGift` always ends at the maximal status
`claimed`, and `lockGift` sets `locked` unconditionally — so the one
backward move the ledger operations allow is `lockGift` applied to a
`claimed` gift, which drops the status from `claimed` back to `locked`. -/
theorem ledger_status_updates (g : Gift) (p : LockParams) (n : Nat)
    (tx id : String) (cp : CreateGiftParams) :
    (createGift id cp).status = .pending ∧
    (updateConfirmations g n).status = g.status ∧
    (claimGift g tx).status = .claimed ∧
    (lockGift g p).status = .locked ∧
    statusRank (lockGift { g with status := .claimed } p).status <
      statusRank GiftStatus.claimed :=
  ⟨rfl, rfl, rfl, rfl, Nat.one_lt_two⟩

/-- C2 counterexample: at a funding amount of 100 sats and a 29% fee —
both in the claim's range — the builder returns `feeSats = 28`, while the
exact `⌊A·F/100⌋ = ⌊100·29/100⌋` is 29: the source computes
`Math.floor(utxoAmountSats * (feePercent / 100))` in binary64 arithmetic,
whose two roundings land just below 29, not in exact integer/rational
arithmetic. -/
theorem fee_not_exact_rational_floor :
    feeLockOf (buildLockingTransaction testEnv pFee29) = some (28, 72) ∧
    100 * 29 / 100 = 29 := by decide

/-- C2 amended: for every successful build, `feeSats` is
`Math.floor(A * (F/100))` evaluated in IEEE-754 binary64 arithmetic
(`jsFee`, which can differ from the exact `⌊A·F/100⌋`), and
`lockedAmountSats` is defined as `A − feeSats`, so
`feeSats + lockedAmountSats = A` holds exactly — no satoshi is created or
destroyed. -/
theorem build_fee_split (env : CryptoEnv) (p : LockingTxParams)
    (r : LockingTxResult) (h : buildLockingTransaction env p = .ok r) :
    r.feeSats = (jsFee p.utxoAmountSats p.feePercent : Int) ∧
    r.feeSats + r.lockedAmountSats = (p.utxoAmountSats : Int) := by
  simp only [buildLockingTransaction] at h
  split at h
  · exact absurd h (by simp)
  · split at h
    · exact absurd h (by simp)
    · split at h
      · exact absurd h (by simp)
      · injection h with h
        subst h
        refine ⟨rfl, ?_⟩
        dsimp only
        omega

/-- C2 witness: the amended split at the 29%-fee build. -/
theorem build_fee_split_witness :
    rFee29.feeSats = (jsFee pFee29.utxoAmountSats pFee29.feePercent : Int) ∧
    rFee29.feeSats + rFee29.lockedAmountSats = (pFee29.utxoAmountSats : Int) :=
  build_fee_split testEnv pFee29 rFee29 rfl

/-- C4 counterexample: at a 1-sat funding amount the computed locked amount
is 1 sat — positive, but below every network dust threshold — and the
builder succeeds instead of failing: no dust check exists. -/
theorem build_succeeds_below_dust :
    isOkB (buildLockingTransaction testEnv pOneSat) = true ∧
    feeLockOf (buildLockingTransaction testEnv pOneSat) = some (0, 1) := by
  decide

/-- C4 amended: given a decodable beneficiary address, the builder fails
with `Amount too small to cover fee` exactly when the computed
`lockedAmountSats` is ≤ 0; the dust threshold is never consulted, so a
positive sub-dust locked output is produced and left to network
rejection. -/
theorem build_fails_only_on_nonpositive_locked (env : CryptoEnv)
    (p : LockingTxParams) (s : List Nat)
    (h : env.toOutputScript p.beneficiaryAddress p.network = some s) :
    (buildLockingTransaction env p = .error "Amount too small to cover fee") ↔
      (p.utxoAmountSats : Int) - (jsFee p.utxoAmountSats p.feePercent : Int) ≤ 0 := by
  simp only [buildLockingTransaction, h]
  by_cases hl :
      (p.utxoAmountSats : Int) - (jsFee p.utxoAmountSats p.feePercent : Int) ≤ 0
  · simp [hl]
  · simp only [if_neg hl]
    constructor
    · intro hc
      cases henv : env.toOutputScript p.feeAddress p.network with
      | none =>
        rw [henv] at hc
        injection hc with hs
        exact absurd hs (by decide)
      | some fs =>
        rw [henv] at hc
        exact Except.noConfusion hc
    · intro hc
      exact absurd hc hl

/-- C4 witness: the amended equivalence at the 1-sat build, whose locked
amount 1 is positive, so the left side is false as well. -/
theorem build_fails_only_on_nonpositive_locked_witness :
    (buildLockingTransaction testEnv pOneSat =
        .error "Amount too small to cover fee") ↔
      (pOneSat.utxoAmountSats : Int) -
          (jsFee pOneSat.utxoAmountSats pOneSat.feePercent : Int) ≤ 0 :=
  build_fails_only_on_nonpositive_locked testEnv pOneSat [11] rfl

/-- C5 counterexample: at the baseline 100,000-sat funding with a 1% fee
the two outputs carry 1,000 and 99,000 sats — they sum to exactly the
funding amount, not strictly less: no transaction-relay fee is reserved
anywhere in the split. -/
theorem outputs_consume_entire_funding :
    outValsOf (buildLockingTransaction testEnv pBase) = some (1000, 99000) ∧
    ¬((1000 : Int) + 99000 < 100000) := by decide

/-- C5 amended: for every successful build, the fee output carries
`feeSats`, the locked output carries `lockedAmountSats`, and the two output
values sum to exactly the funding amount — the builder reserves no
transaction-relay fee, leaving a zero miner-fee budget. -/
theorem outputs_sum_exactly_funding (env : CryptoEnv) (p : LockingTxParams)
    (r : LockingTxResult) (h : buildLockingTransaction env p = .ok r) :
    r.feeOutput.value + r.lockedOutput.value = (p.utxoAmountSats : Int) ∧
    r.feeOutput.value = r.feeSats ∧
    r.lockedOutput.value = r.lockedAmountSats := by
  simp only [buildLockingTransaction] at h
  split at h
  · exact absurd h (by simp)
  · split at h
    · exact absurd h (by simp)
    · split at h
      · exact absurd h (by simp)
      · injection h with h
        subst h
        refine ⟨?_, rfl, rfl⟩
        dsimp only
        omega

/-- C5 witness: the output-value sum at the baseline build. -/
theorem outputs_sum_exactly_funding_witness :
    rBase.feeOutput.value + rBase.lockedOutput.value =
        (pBase.utxoAmountSats : Int) ∧
    rBase.feeOutput.value = rBase.feeSats ∧
    rBase.lockedOutput.value = rBase.lockedAmountSats :=
  outputs_sum_exactly_funding testEnv pBase rBase rfl

/-- C6 counterexample: with `unlockTimestamp = 600000` — a block-height
range value (< 500,000,000) that is also far in the past relative to a
current time of 1,760,000,000 — the builder succeeds and silently encodes
the value as a fixed 4-byte field in the redeem script; no
`UnlockTimeOutOfRange` failure exists. -/
theorem block_height_value_silently_encoded :
    redeemOf (buildLockingTransaction testEnv pHeight) =
      some [ .push [0xC0, 0x27, 0x09, 0x00], .OP_CHECKLOCKTIMEVERIFY,
             .OP_DROP, .push [0, 6], .OP_CHECKSIG ] ∧
    600000 ≤ 1760000000 ∧ (600000 : Nat) < 500000000 := by decide

/-- C6 amended: neither `createCLTVRedeemScript` nor
`buildLockingTransaction` validates the unlock timestamp — whether a build
succeeds is independent of the timestamp, every value being encoded as
supplied — and the only unlock-time validation in the system is the create
route's strictly-in-the-future check, which accepts any later date with no
50-year (or any) upper horizon. -/
theorem no_unlock_time_validation (env : CryptoEnv) (p : LockingTxParams)
    (t' : Nat) (nowMs k : Nat) :
    isOkB (buildLockingTransaction env p) =
      isOkB (buildLockingTransaction env { p with unlockTimestamp := t' }) ∧
    createRouteUnlockOk (nowMs + k + 1) nowMs = true := by
  constructor
  · simp only [buildLockingTransaction]
    cases henv : env.toOutputScript p.beneficiaryAddress p.network with
    | none => rfl
    | some s =>
      by_cases hl :
          (p.utxoAmountSats : Int) -
            (jsFee p.utxoAmountSats p.feePercent : Int) ≤ 0
      · simp [hl]
      · simp only [if_neg hl]
        cases env.toOutputScript p.feeAddress p.network <;> rfl
  · simp only [createRouteUnlockOk, decide_eq_true_eq]
    omega

/-- C9 counterexample: the mempool webhook applies no minimum-amount
threshold: for a pending gift whose deposit address holds a single
5,999-sat UTXO — below the 6,000-sat acceptance threshold — it builds and
broadcasts the locking transaction and commits the gift to `locked`,
instead of treating it as no qualifying deposit. -/
theorem webhook_locks_subthreshold_deposit :
    whRun5999.1 = .lockedGiftHook ∧
    whRun5999.2.status = .locked ∧
    whRun5999.2 ≠ gPending ∧
    (5999 : Nat) < 6000 := by decide

/-- C9 amended: the periodic check-deposits sweep does treat a deposit
below 6,000 sats as no qualifying deposit — it skips the gift and leaves
the record unchanged — but the mempool webhook applies no such threshold:
on the 5,999-sat deposit it builds the locking transaction and moves the
gift to `locked`. -/
theorem sweep_skips_small_deposit_webhook_does_not (env : CryptoEnv)
    (hdSeed : Option String) (fp : Frac) (fa : Option String) (net : Network)
    (btx : String) (gift : Gift) (u : Utxo) (h : u.amount < 6000) :
    checkDepositsStep env hdSeed fp fa net btx gift (some u) =
      (.skippedTooSmall, gift) ∧
    whRun5999.1 = .lockedGiftHook ∧
    whRun5999.2.status = .locked := by
  refine ⟨?_, by decide, by decide⟩
  simp only [checkDepositsStep, if_pos h]

/-- C9 witness: the amended statement at the 5,999-sat UTXO itself. -/
theorem sweep_skips_small_deposit_webhook_does_not_witness :
    checkDepositsStep testEnv (some "seed") ⟨1, 1⟩ (some "feeaddr") .testnet
        "locktx" gPending (some ⟨"deptx", 0, 5999⟩) =
      (.skippedTooSmall, gPending) ∧
    whRun5999.1 = .lockedGiftHook ∧
    whRun5999.2.status = .locked :=
  sweep_skips_small_deposit_webhook_does_not testEnv (some "seed") ⟨1, 1⟩
    (some "feeaddr") .testnet "locktx" gPending ⟨"deptx", 0, 5999⟩
    (by decide)

/-- C10: `getUtxo` returns exactly the first element of the provider's
UTXO list (`utxos[0]`), `none` on an empty list or a failed request; and
the webhook's reconciliation is therefore insensitive to every UTXO after
the first — replacing the tail of the list changes nothing about the
transaction it builds or the state it commits. -/
theorem getUtxo_first_element_only (u : RawUtxo) (rest rest' : List RawUtxo)
    (env : CryptoEnv) (hw fa : Option String) (net : Network) (gift : Gift)
    (btx : String) (btid : Option String) :
    getUtxo (some (u :: rest)) = some ⟨u.txid, u.vout, u.value⟩ ∧
    getUtxo (some []) = none ∧
    getUtxo none = none ∧
    webhookRoute env hw fa net gift (some (u :: rest)) btx btid =
      webhookRoute env hw fa net gift (some (u :: rest')) btx btid :=
  ⟨rfl, rfl, rfl, rfl⟩

end LockGift
